import Mathlib

/-!
Verification of the duckdb-httpfs secret-creation and S3 write-path layer.

The definitions below are a shallow embedding of
`CreateS3SecretFunctions` (create_secret_functions.cpp) and of the
`S3WriteBuffer` / `S3FileHandle` constructors (s3fs.hpp).  C++
`case_insensitive_map_t` option maps are embedded as association lists in
iteration order; all keys the code itself writes into a secret map are
lower-case string literals, so exact-match association lists are faithful
there.  Fallible C++ code (`throw InvalidInputException` etc.) is embedded
as `Except`.
-/

namespace Httpfs

/-- ASCII lower-casing, embedding `StringUtil::Lower`. -/
def strLower (s : String) : String := ⟨s.data.map Char.toLower⟩

/-- Embedding of the duckdb `Value`s that can reach the secret-creation
path: `VARCHAR`, `BOOLEAN`, `MAP(VARCHAR, VARCHAR)` (the declared type of
the `refresh_info` named parameter) and `STRUCT` values. -/
inductive Value where
  | str : String → Value
  | boolean : Bool → Value
  | mapVal : List (String × String) → Value
  | structVal : List (String × Value) → Value

/-- `Value::ToString` / `Value::GetValue<string>` for the values above. -/
def valueToString : Value → String
  | .str s => s
  | .boolean b => if b then "true" else "false"
  | .mapVal _ => ""
  | .structVal _ => ""

/-- `value.type() == LogicalType::BOOLEAN`. -/
def valueIsBoolean : Value → Bool
  | .boolean _ => true
  | _ => false

/-- `Value::GetValue<bool>` (only reached on `BOOLEAN` values). -/
def valueGetBool : Value → Bool
  | .boolean b => b
  | _ => false

/-- `LogicalType::ToString` of the embedded value's type (used in error
messages only). -/
def valueTypeName : Value → String
  | .str _ => "VARCHAR"
  | .boolean _ => "BOOLEAN"
  | .mapVal _ => "MAP(VARCHAR, VARCHAR)"
  | .structVal _ => "STRUCT"

/-- The children of a `STRUCT` value (`StructValue::GetChildren` paired
with `StructType::GetChildName`). -/
def structChildren : Value → List (String × Value)
  | .structVal l => l
  | _ => []

/-- `SecretPersistType` from duckdb's secret manager. -/
inductive SecretPersistType where
  | defaultType | temporary | persistent
deriving DecidableEq

/-- `OnCreateConflict` from duckdb's catalog. -/
inductive OnCreateConflict where
  | errorOnConflict | ignoreOnConflict | replaceOnConflict | alterOnConflict
deriving DecidableEq

/-- Embedding of `CreateSecretInput`: the option map is an association
list in the iteration order of the original `case_insensitive_map_t`. -/
structure CreateSecretInput where
  type : String
  provider : String
  name : String
  scope : List String
  options : List (String × Value)
  onConflict : OnCreateConflict
  persistType : SecretPersistType
  storageType : String

/-- Lookup in an association-list map (`map[k]` read). -/
def getKV : List (String × Value) → String → Option Value
  | [], _ => none
  | (k', v') :: rest, k => if k' = k then some v' else getKV rest k

/-- Update of an association-list map (`map[k] = v`): replaces the
binding when the key is present, otherwise appends it. -/
def insertKV : List (String × Value) → String → Value → List (String × Value)
  | [], k, v => [(k, v)]
  | (k', v') :: rest, k, v =>
      if k' = k then (k, v) :: rest else (k', v') :: insertKV rest k v

/-- Embedding of `KeyValueSecret`: scope, type, provider, name, the
key-value map and the redact-key set. -/
structure KeyValueSecret where
  scope : List String
  type : String
  provider : String
  name : String
  secretMap : List (String × Value)
  redactKeys : List String

/-- Errors surfaced by the secret-creation path: `InvalidInputException`
and `InternalException`, each carrying its message. -/
inductive SecretError where
  | invalidInput : String → SecretError
  | internalError : String → SecretError

/-- Embedding of the static `MapToStruct` helper: converts a
`MAP(VARCHAR, VARCHAR)` value into a `STRUCT` whose field names are the
stringified map keys. -/
def MapToStruct : Value → Except String Value
  | .mapVal l => .ok (.structVal (l.map fun q => (q.1, Value.str q.2)))
  | _ => .error "Invalid input passed to refresh_info"

/-- The state threaded through the option loop of
`CreateSecretFunctionInternal`: the secret under construction plus the
local `refresh` flag. -/
structure BuildState where
  secret : KeyValueSecret
  refresh : Bool

/-- `secret->secret_map[k] = v`. -/
def setMap (st : BuildState) (k : String) (v : Value) : BuildState :=
  { st with secret := { st.secret with secretMap := insertKV st.secret.secretMap k v } }

/-- Error message of the `use_ssl` / `url_compatibility_mode` /
`requester_pays` type checks. -/
def boolTypeErr (lowerName : String) (v : Value) : String :=
  "Invalid type past to secret option: '" ++ lowerName ++ "', found '" ++
    valueTypeName v ++ "', expected: 'BOOLEAN'"

/-- One iteration of the option loop of
`CreateSecretFunctionInternal`.  `allOpts` is the full `input.options`
map, consulted by the nested loop of the `refresh` branch. -/
def applyOption (allOpts : List (String × Value)) (st : BuildState) (p : String × Value) :
    Except String BuildState :=
  if strLower p.1 = "key_id" then .ok (setMap st "key_id" p.2)
  else if strLower p.1 = "secret" then .ok (setMap st "secret" p.2)
  else if strLower p.1 = "region" then .ok (setMap st "region" (.str (valueToString p.2)))
  else if strLower p.1 = "session_token" then
    .ok (setMap st "session_token" (.str (valueToString p.2)))
  else if strLower p.1 = "endpoint" then .ok (setMap st "endpoint" (.str (valueToString p.2)))
  else if strLower p.1 = "url_style" then .ok (setMap st "url_style" (.str (valueToString p.2)))
  else if strLower p.1 = "use_ssl" then
    if !valueIsBoolean p.2 then .error (boolTypeErr (strLower p.1) p.2)
    else .ok (setMap st "use_ssl" (.boolean (valueGetBool p.2)))
  else if strLower p.1 = "kms_key_id" then .ok (setMap st "kms_key_id" (.str (valueToString p.2)))
  else if strLower p.1 = "url_compatibility_mode" then
    if !valueIsBoolean p.2 then .error (boolTypeErr (strLower p.1) p.2)
    else .ok (setMap st "url_compatibility_mode" (.boolean (valueGetBool p.2)))
  else if strLower p.1 = "account_id" then .ok st
  else if strLower p.1 = "refresh" then
    if st.refresh then .error "Can not set `refresh` and `refresh_info` at the same time"
    else
      .ok (setMap (setMap { st with refresh := valueToString p.2 == "auto" }
          "refresh" (.str "auto"))
        "refresh_info" (.structVal (allOpts.map fun q => (strLower q.1, q.2))))
  else if strLower p.1 = "refresh_info" then
    if st.refresh then .error "Can not set `refresh` and `refresh_info` at the same time"
    else
      match MapToStruct p.2 with
      | .error e => .error e
      | .ok sv => .ok { setMap st "refresh_info" sv with refresh := true }
  else if strLower p.1 = "requester_pays" then
    if !valueIsBoolean p.2 then .error (boolTypeErr (strLower p.1) p.2)
    else .ok (setMap st "requester_pays" (.boolean (valueGetBool p.2)))
  else .error ("Unknown named parameter passed to CreateSecretFunctionInternal: " ++ strLower p.1)

/-- The option loop of `CreateSecretFunctionInternal`, folding
`applyOption` over the options in map-iteration order and stopping at
the first thrown error. -/
def applyOptions (allOpts : List (String × Value)) (st : BuildState) :
    List (String × Value) → Except String BuildState
  | [] => .ok st
  | p :: rest =>
      match applyOption allOpts st p with
      | .error e => .error e
      | .ok st' => applyOptions allOpts st' rest

/-- The scope-defaulting prologue of `CreateSecretFunctionInternal`:
user-supplied scope when non-empty, otherwise the per-type default,
throwing `InternalException` on an unknown type. -/
def resolveScope (input : CreateSecretInput) : Except SecretError (List String) :=
  if input.scope.isEmpty then
    if input.type = "s3" then .ok ["s3://", "s3n://", "s3a://"]
    else if input.type = "r2" then .ok ["r2://"]
    else if input.type = "gcs" then .ok ["gcs://", "gs://"]
    else if input.type = "aws" then .ok [""]
    else .error (.internalError
      ("Unknown secret type found in httpfs extension: '" ++ input.type ++ "'"))
  else .ok input.scope

/-- The fresh `KeyValueSecret` allocated by
`CreateSecretFunctionInternal` before the option loop:
`make_uniq<KeyValueSecret>(scope, type, provider, name)` followed by the
redact-key assignment. -/
def baseSecret (input : CreateSecretInput) (scope : List String) : KeyValueSecret :=
  { scope := scope, type := input.type, provider := input.provider, name := input.name,
    secretMap := [], redactKeys := ["secret", "session_token"] }

/-- The r2 special case: when the type is `r2` and an `account_id`
option is present, derive `endpoint` and `url_style` from it. -/
def applyR2AccountId (input : CreateSecretInput) (secret : KeyValueSecret) : KeyValueSecret :=
  match (if input.type = "r2" then
           input.options.find? (fun q => strLower q.1 = "account_id")
         else none) with
  | some q =>
    let m1 := insertKV secret.secretMap "endpoint"
      (.str (valueToString q.2 ++ ".r2.cloudflarestorage.com"))
    let m2 := insertKV m1 "url_style" (.str "path")
    { secret with secretMap := m2 }
  | none => secret

/-- The state of `CreateSecretFunctionInternal` just before the option
loop. -/
def initialState (input : CreateSecretInput) : Except SecretError BuildState :=
  match resolveScope input with
  | .error e => .error e
  | .ok scope =>
    .ok { secret := applyR2AccountId input (baseSecret input scope), refresh := false }

/-- Embedding of `CreateS3SecretFunctions::CreateSecretFunctionInternal`. -/
def CreateSecretFunctionInternal (input : CreateSecretInput) :
    Except SecretError KeyValueSecret :=
  match initialState input with
  | .error e => .error e
  | .ok st =>
    match applyOptions input.options st input.options with
    | .error msg => .error (.invalidInput msg)
    | .ok st' => .ok st'.secret

/-- Embedding of the `SecretEntry` fields read by the refresh path. -/
structure SecretEntry where
  secret : KeyValueSecret
  storageMode : String

/-- Embedding of `CreateS3SecretFunctions::GenerateRefreshSecretInfo`:
builds the replacement-creation input from the stored secret entry and
its `refresh_info` struct. -/
def GenerateRefreshSecretInfo (entry : SecretEntry) (refreshInfo : Value) :
    CreateSecretInput :=
  { type := entry.secret.type
    provider := entry.secret.provider
    name := entry.secret.name
    scope := entry.secret.scope
    options := (structChildren refreshInfo).foldl (fun acc q => insertKV acc q.1 q.2) []
    onConflict := .replaceOnConflict
    persistType := .temporary
    storageType := entry.storageMode }

/-- The wrapping applied by `TryRefreshS3Secret` to an exception thrown
while replaying the creation function: the error kind is kept and the
message is rewritten around the secret's name. -/
def refreshFailMsg (name : String) (m : String) : String :=
  "Exception thrown while trying to refresh secret " ++ name ++
    ". To fix this, please recreate or remove the secret and try again. Error: '" ++ m ++ "'"

/-- Rethrow of a refresh failure with the rewritten message. -/
def rewrapRefreshError (name : String) : SecretError → SecretError
  | .invalidInput m => .invalidInput (refreshFailMsg name m)
  | .internalError m => .internalError (refreshFailMsg name m)

/-- Embedding of `CreateS3SecretFunctions::TryRefreshS3Secret`.  The
secret manager's `CreateSecret` is a parameter; the second component of
the result is the list of inputs it was invoked with, so the theorems
can speak about which calls were made. -/
def TryRefreshS3Secret
    (createSecret : CreateSecretInput → Except SecretError KeyValueSecret)
    (entry : SecretEntry) :
    Except SecretError Bool × List CreateSecretInput :=
  match getKV entry.secret.secretMap "refresh_info" with
  | none => (.ok false, [])
  | some ri =>
    let input := GenerateRefreshSecretInfo entry ri
    match createSecret input with
    | .ok _ => (.ok true, [input])
    | .error e => (.error (rewrapRefreshError entry.secret.name e), [input])

/-- The option keys recognized by the option loop of
`CreateSecretFunctionInternal`. -/
def recognizedKeys : List String :=
  ["key_id", "secret", "region", "session_token", "endpoint", "url_style", "use_ssl",
   "kms_key_id", "url_compatibility_mode", "account_id", "refresh", "refresh_info",
   "requester_pays"]

/-- Whether a creation result is a success. -/
def creationOk : Except SecretError KeyValueSecret → Bool
  | .ok _ => true
  | .error _ => false

/-- Whether a creation result is an `InvalidInputException`. -/
def isInvalidInputError : Except SecretError KeyValueSecret → Bool
  | .error (.invalidInput _) => true
  | _ => false

/-- Whether a successful creation result carries the given key in its
secret map. -/
def okCarriesKey (r : Except SecretError KeyValueSecret) (k : String) : Bool :=
  match r with
  | .ok s => (getKV s.secretMap k).isSome
  | .error _ => false

/-- The value stored under a key by a successful creation result. -/
def okMapLookup (r : Except SecretError KeyValueSecret) (k : String) : Option Value :=
  match r with
  | .ok s => getKV s.secretMap k
  | .error _ => none

/-- Two options that agree up to the case of their key: the original
`case_insensitive_map_t` treats them as the same entry. -/
def optRel (p q : String × Value) : Prop := strLower p.1 = strLower q.1 ∧ p.2 = q.2

/-- Concrete secret entry used to exercise the refresh-replay path: it
carries a `refresh_info` recipe. -/
def c1entry : SecretEntry :=
  { secret := { scope := ["s3://"], type := "s3", provider := "config", name := "mysecret",
                secretMap := [("key_id", .str "k1"),
                              ("refresh_info", .structVal [("key_id", .str "k1"),
                                                           ("secret", .str "s1")])],
                redactKeys := ["secret", "session_token"] },
    storageMode := "memory" }

/-- The recipe stored inside `c1entry`. -/
def c1ri : Value := .structVal [("key_id", .str "k1"), ("secret", .str "s1")]

/-- Concrete secret entry with no refresh recipe. -/
def c3entry : SecretEntry :=
  { secret := { scope := ["s3://"], type := "s3", provider := "config", name := "plain",
                secretMap := [("key_id", .str "k1")],
                redactKeys := ["secret", "session_token"] },
    storageMode := "memory" }

/-- Concrete creation input with an explicitly empty scope for type gcs. -/
def c5input : CreateSecretInput :=
  { type := "gcs", provider := "config", name := "w5", scope := [],
    options := [], onConflict := .errorOnConflict, persistType := .persistent,
    storageType := "memory" }

/-- The secret produced by `CreateSecretFunctionInternal` on `c5input`. -/
def c5secret : KeyValueSecret :=
  { scope := ["gcs://", "gs://"], type := "gcs", provider := "config", name := "w5",
    secretMap := [], redactKeys := ["secret", "session_token"] }

/-- Creation input carrying `refresh='disabled'` iterated before a
`refresh_info` map: the mutual-exclusion check does not fire on it. -/
def c2cexInput : CreateSecretInput :=
  { type := "s3", provider := "config", name := "cex2", scope := [],
    options := [("refresh", .str "disabled"), ("refresh_info", .mapVal [("a", "b")])],
    onConflict := .errorOnConflict, persistType := .temporary, storageType := "memory" }

/-- Creation input carrying `refresh='auto'` together with a
`refresh_info` map (iterated first). -/
def c2amInput : CreateSecretInput :=
  { type := "s3", provider := "config", name := "am2", scope := [],
    options := [("refresh_info", .mapVal [("a", "b")]), ("REFRESH", .str "auto")],
    onConflict := .errorOnConflict, persistType := .temporary, storageType := "memory" }

/-- The state entering the option loop on `c2amInput`. -/
def c2amState : BuildState :=
  { secret := { scope := ["s3://", "s3n://", "s3a://"], type := "s3", provider := "config",
                name := "am2", secretMap := [], redactKeys := ["secret", "session_token"] },
    refresh := false }

/-- Creation input carrying a `refresh_info` map iterated before a
`refresh` option with a non-`auto` value. -/
def c2bInput : CreateSecretInput :=
  { type := "s3", provider := "config", name := "bm2", scope := [],
    options := [("refresh_info", .mapVal [("a", "b")]), ("refresh", .str "disabled")],
    onConflict := .errorOnConflict, persistType := .temporary, storageType := "memory" }

/-- The state entering the option loop on `c2bInput`. -/
def c2bState : BuildState :=
  { secret := { scope := ["s3://", "s3n://", "s3a://"], type := "s3", provider := "config",
                name := "bm2", secretMap := [], redactKeys := ["secret", "session_token"] },
    refresh := false }

/-- Creation input with an unrecognized option key after a recognized
one. -/
def c4input : CreateSecretInput :=
  { type := "s3", provider := "config", name := "w4", scope := [],
    options := [("KEY_ID", .str "k"), ("Wrong_Key", .str "x")],
    onConflict := .errorOnConflict, persistType := .temporary, storageType := "memory" }

/-- The state entering the option loop on `c4input`. -/
def c4st0 : BuildState :=
  { secret := { scope := ["s3://", "s3n://", "s3a://"], type := "s3", provider := "config",
                name := "w4", secretMap := [], redactKeys := ["secret", "session_token"] },
    refresh := false }

/-- The state after the `KEY_ID` option of `c4input`. -/
def c4st1 : BuildState :=
  { secret := { scope := ["s3://", "s3n://", "s3a://"], type := "s3", provider := "config",
                name := "w4", secretMap := [("key_id", .str "k")],
                redactKeys := ["secret", "session_token"] },
    refresh := false }

/-- Creation input carrying `refresh='disabled'` before `refresh_info`:
the later `refresh_info` option overwrites the recorded all-options
struct. -/
def c9cexInput : CreateSecretInput :=
  { type := "s3", provider := "config", name := "cex9", scope := [],
    options := [("refresh", .str "disabled"), ("refresh_info", .mapVal [("a", "b")])],
    onConflict := .errorOnConflict, persistType := .temporary, storageType := "memory" }

/-- Creation input with a `REFRESH` option (non-`auto` value) and no
`refresh_info`. -/
def c9wInput : CreateSecretInput :=
  { type := "s3", provider := "config", name := "w9", scope := [],
    options := [("REFRESH", .str "disabled"), ("key_id", .str "k")],
    onConflict := .errorOnConflict, persistType := .temporary, storageType := "memory" }

/-- The state entering the option loop on `c9wInput`. -/
def c9wst0 : BuildState :=
  { secret := { scope := ["s3://", "s3n://", "s3a://"], type := "s3", provider := "config",
                name := "w9", secretMap := [], redactKeys := ["secret", "session_token"] },
    refresh := false }

/-- The state after the full option loop on `c9wInput`. -/
def c9wstf : BuildState :=
  { secret := { scope := ["s3://", "s3n://", "s3a://"], type := "s3", provider := "config",
                name := "w9",
                secretMap := [("refresh", .str "auto"),
                              ("refresh_info",
                                .structVal [("refresh", .str "disabled"),
                                            ("key_id", .str "k")]),
                              ("key_id", .str "k")],
                redactKeys := ["secret", "session_token"] },
    refresh := false }

/-- Concrete creation input used for the redact-key witness. -/
def c6input : CreateSecretInput :=
  { type := "s3", provider := "config", name := "w6", scope := [],
    options := [("KEY_ID", .str "k")], onConflict := .errorOnConflict,
    persistType := .temporary, storageType := "memory" }

/-- The secret produced by `CreateSecretFunctionInternal` on `c6input`. -/
def c6secret : KeyValueSecret :=
  { scope := ["s3://", "s3n://", "s3a://"], type := "s3", provider := "config", name := "w6",
    secretMap := [("key_id", .str "k")], redactKeys := ["secret", "session_token"] }

/-- `c6input` with its option key written in lower case. -/
def c10input : CreateSecretInput :=
  { type := "s3", provider := "config", name := "w6", scope := [],
    options := [("key_id", .str "k")], onConflict := .errorOnConflict,
    persistType := .temporary, storageType := "memory" }

/-- The open-mode predicates of duckdb's `FileOpenFlags` consulted by the
`S3FileHandle` constructor: `OpenForReading`, `OpenForWriting`,
`OpenForAppending`. -/
structure FileOpenFlags where
  openForReading : Bool
  openForWriting : Bool
  openForAppending : Bool
deriving DecidableEq

/-- The bookkeeping fields initialized by the `S3FileHandle`
constructor. -/
structure S3FileHandleState where
  uploadsInProgress : Nat
  partsUploaded : Nat
  uploadFinalized : Bool
  uploaderHasError : Bool
deriving DecidableEq

/-- Embedding of the `S3FileHandle` constructor body: the flag checks
(each `throw NotImplementedException`, carried here as the error
message) followed by the member initialization. -/
def initS3FileHandle (flags : FileOpenFlags) : Except String S3FileHandleState :=
  if flags.openForReading && flags.openForWriting then
    .error "Cannot open an HTTP file for both reading and writing"
  else if flags.openForAppending then
    .error "Cannot open an HTTP file for appending"
  else
    .ok { uploadsInProgress := 0, partsUploaded := 0, uploadFinalized := false,
          uploaderHasError := false }

/-- Whether `S3FileHandle` construction succeeded. -/
def handleOk : Except String S3FileHandleState → Bool
  | .ok _ => true
  | .error _ => false

/-- `idx_t` arithmetic is modulo `2^64`. -/
def UINT64_MOD : Nat := 2 ^ 64

/-- The fields of `S3WriteBuffer` set by its constructor. -/
structure S3WriteBuffer where
  partNo : Nat
  idx : Nat
  bufferStart : Nat
  bufferEnd : Nat
  uploading : Bool
deriving DecidableEq

/-- Embedding of the `S3WriteBuffer(buffer_start, buffer_size, buffer_p)`
constructor: `idx = 0`, `buffer_end = buffer_start + buffer_size`,
`part_no = buffer_start / buffer_size`, `uploading = false`. -/
def initS3WriteBuffer (bufferStart bufferSize : Nat) : S3WriteBuffer :=
  { idx := 0
    bufferStart := bufferStart
    bufferEnd := (bufferStart + bufferSize) % UINT64_MOD
    partNo := bufferStart / bufferSize
    uploading := false }

/-- Modelled from the spec: the provider-facing part number of a write
buffer.  The upload call sites (`S3FileSystem::FlushBuffer` in s3fs.cpp)
are not part of the sources here; the spec and the header comment on
`part_no` ("internally we start at 0 but AWS S3 starts at 1") say the
provider-facing number is the internal part number plus one. -/
def providerPartNo (b : S3WriteBuffer) : Nat := b.partNo + 1

end Httpfs

namespace Httpfs

/-- Unfolding equation of the option loop on a non-empty list. -/
theorem applyOptions_cons (all : List (String × Value)) (st : BuildState)
    (p : String × Value) (rest : List (String × Value)) :
    applyOptions all st (p :: rest) =
      match applyOption all st p with
      | .error e => .error e
      | .ok st' => applyOptions all st' rest := rfl

/-- The option loop over a concatenation runs the first block and, when
it survives, continues on the second from the resulting state. -/
theorem applyOptions_append (all : List (String × Value)) :
    ∀ (l₁ l₂ : List (String × Value)) (st : BuildState),
    applyOptions all st (l₁ ++ l₂) =
      match applyOptions all st l₁ with
      | .error e => .error e
      | .ok st' => applyOptions all st' l₂ := by
  intro l₁
  induction l₁ with
  | nil => intro l₂ st; rfl
  | cons p rest ih =>
    intro l₂ st
    rw [List.cons_append, applyOptions_cons, applyOptions_cons]
    cases applyOption all st p with
    | error e => rfl
    | ok st1 => exact ih l₂ st1

/-- Reading an association-list map after an update. -/
theorem getKV_insertKV : ∀ (m : List (String × Value)) (k k' : String) (v : Value),
    getKV (insertKV m k v) k' = if k = k' then some v else getKV m k' := by
  intro m k k' v
  induction m with
  | nil => simp only [insertKV, getKV]
  | cons q rest ih =>
    rcases q with ⟨k0, v0⟩
    by_cases h0 : k0 = k
    · subst h0
      simp only [insertKV, if_pos rfl, getKV]
      by_cases h1 : k0 = k'
      · subst h1; simp [getKV]
      · simp [getKV, h1]
    · simp only [insertKV, if_neg h0, getKV]
      by_cases h1 : k0 = k'
      · subst h1
        have hk : ¬(k = k0) := fun he => h0 he.symm
        simp [getKV, if_neg hk]
      · simp [getKV, h1, ih]

/-- Full characterization of a successful loop iteration of
`CreateSecretFunctionInternal`: the identity fields of the secret are
untouched; the `refresh` branch requires a clear flag, records
`refresh = "auto"` and the lower-cased copy of all options under
`refresh_info`, and sets the flag iff the supplied value is the literal
`"auto"`; the `refresh_info` branch requires a clear flag and sets it;
every other branch leaves the flag and the two refresh map entries
alone. -/
theorem applyOption_ok_spec {all : List (String × Value)} {st : BuildState}
    {p : String × Value} {st' : BuildState} (h : applyOption all st p = .ok st') :
    (st'.secret.scope = st.secret.scope ∧ st'.secret.redactKeys = st.secret.redactKeys ∧
     st'.secret.type = st.secret.type ∧ st'.secret.provider = st.secret.provider ∧
     st'.secret.name = st.secret.name) ∧
    (strLower p.1 = "refresh" →
      st.refresh = false ∧ st'.refresh = (valueToString p.2 == "auto") ∧
      getKV st'.secret.secretMap "refresh" = some (Value.str "auto") ∧
      getKV st'.secret.secretMap "refresh_info" =
        some (Value.structVal (all.map fun q => (strLower q.1, q.2)))) ∧
    (strLower p.1 = "refresh_info" → st.refresh = false ∧ st'.refresh = true) ∧
    (strLower p.1 ≠ "refresh" → strLower p.1 ≠ "refresh_info" →
      st'.refresh = st.refresh ∧
      getKV st'.secret.secretMap "refresh" = getKV st.secret.secretMap "refresh" ∧
      getKV st'.secret.secretMap "refresh_info" = getKV st.secret.secretMap "refresh_info") := by
  unfold applyOption at h
  by_cases h1 : strLower p.1 = "key_id"
  · rw [if_pos h1] at h; cases h; simp [h1, setMap, getKV_insertKV]
  rw [if_neg h1] at h
  by_cases h2 : strLower p.1 = "secret"
  · rw [if_pos h2] at h; cases h; simp [h2, setMap, getKV_insertKV]
  rw [if_neg h2] at h
  by_cases h3 : strLower p.1 = "region"
  · rw [if_pos h3] at h; cases h; simp [h3, setMap, getKV_insertKV]
  rw [if_neg h3] at h
  by_cases h4 : strLower p.1 = "session_token"
  · rw [if_pos h4] at h; cases h; simp [h4, setMap, getKV_insertKV]
  rw [if_neg h4] at h
  by_cases h5 : strLower p.1 = "endpoint"
  · rw [if_pos h5] at h; cases h; simp [h5, setMap, getKV_insertKV]
  rw [if_neg h5] at h
  by_cases h6 : strLower p.1 = "url_style"
  · rw [if_pos h6] at h; cases h; simp [h6, setMap, getKV_insertKV]
  rw [if_neg h6] at h
  by_cases h7 : strLower p.1 = "use_ssl"
  · rw [if_pos h7] at h
    by_cases hb : (!valueIsBoolean p.2) = true
    · rw [if_pos hb] at h; exact Except.noConfusion h
    · rw [if_neg hb] at h; cases h; simp [h7, setMap, getKV_insertKV]
  rw [if_neg h7] at h
  by_cases h8 : strLower p.1 = "kms_key_id"
  · rw [if_pos h8] at h; cases h; simp [h8, setMap, getKV_insertKV]
  rw [if_neg h8] at h
  by_cases h9 : strLower p.1 = "url_compatibility_mode"
  · rw [if_pos h9] at h
    by_cases hb : (!valueIsBoolean p.2) = true
    · rw [if_pos hb] at h; exact Except.noConfusion h
    · rw [if_neg hb] at h; cases h; simp [h9, setMap, getKV_insertKV]
  rw [if_neg h9] at h
  by_cases h10 : strLower p.1 = "account_id"
  · rw [if_pos h10] at h; cases h; simp [h10]
  rw [if_neg h10] at h
  by_cases h11 : strLower p.1 = "refresh"
  · rw [if_pos h11] at h
    by_cases hf : st.refresh = true
    · rw [if_pos hf] at h; exact Except.noConfusion h
    · rw [if_neg hf] at h; cases h; rw [Bool.not_eq_true] at hf
      simp [h11, hf, setMap, getKV_insertKV]
  rw [if_neg h11] at h
  by_cases h12 : strLower p.1 = "refresh_info"
  · rw [if_pos h12] at h
    by_cases hf : st.refresh = true
    · rw [if_pos hf] at h; exact Except.noConfusion h
    · rw [if_neg hf] at h
      cases hm : MapToStruct p.2 with
      | error e => rw [hm] at h; exact Except.noConfusion h
      | ok sv => rw [hm] at h; cases h; rw [Bool.not_eq_true] at hf
                 simp [h12, hf, setMap, getKV_insertKV]
  rw [if_neg h12] at h
  by_cases h13 : strLower p.1 = "requester_pays"
  · rw [if_pos h13] at h
    by_cases hb : (!valueIsBoolean p.2) = true
    · rw [if_pos hb] at h; exact Except.noConfusion h
    · rw [if_neg hb] at h; cases h; simp [h13, setMap, getKV_insertKV]
  rw [if_neg h13] at h
  exact Except.noConfusion h

/-- A successful loop iteration never changes the scope, redact keys,
type, provider or name of the secret under construction: every branch
only touches the secret map and the refresh flag. -/
theorem applyOption_ok_fields {all : List (String × Value)} {st : BuildState}
    {p : String × Value} {st' : BuildState} (h : applyOption all st p = .ok st') :
    st'.secret.scope = st.secret.scope ∧ st'.secret.redactKeys = st.secret.redactKeys ∧
    st'.secret.type = st.secret.type ∧ st'.secret.provider = st.secret.provider ∧
    st'.secret.name = st.secret.name :=
  (applyOption_ok_spec h).1

/-- Lifting of `applyOption_ok_fields` over the whole option loop. -/
theorem applyOptions_ok_fields {all : List (String × Value)} :
    ∀ (l : List (String × Value)) (st st' : BuildState),
    applyOptions all st l = .ok st' →
    st'.secret.scope = st.secret.scope ∧ st'.secret.redactKeys = st.secret.redactKeys ∧
    st'.secret.type = st.secret.type ∧ st'.secret.provider = st.secret.provider ∧
    st'.secret.name = st.secret.name := by
  intro l
  induction l with
  | nil => intro st st' h; cases h; exact ⟨rfl, rfl, rfl, rfl, rfl⟩
  | cons p rest ih =>
    intro st st' h
    rw [applyOptions_cons] at h
    cases hap : applyOption all st p with
    | error e => rw [hap] at h; exact Except.noConfusion h
    | ok st1 =>
      rw [hap] at h
      obtain ⟨a1, a2, a3, a4, a5⟩ := applyOption_ok_fields hap
      obtain ⟨b1, b2, b3, b4, b5⟩ := ih st1 st' h
      exact ⟨b1.trans a1, b2.trans a2, b3.trans a3, b4.trans a4, b5.trans a5⟩

/-- The state entering the option loop: its scope is the resolved scope,
its identity fields come from the input, the redact keys are fixed and
the refresh flag starts false. -/
theorem initialState_fields {input : CreateSecretInput} {st : BuildState}
    (h : initialState input = .ok st) :
    resolveScope input = .ok st.secret.scope ∧
    st.secret.type = input.type ∧ st.secret.provider = input.provider ∧
    st.secret.name = input.name ∧
    st.secret.redactKeys = ["secret", "session_token"] ∧
    st.refresh = false := by
  have hr2 : ∀ s : KeyValueSecret,
      (applyR2AccountId input s).scope = s.scope ∧
      (applyR2AccountId input s).type = s.type ∧
      (applyR2AccountId input s).provider = s.provider ∧
      (applyR2AccountId input s).name = s.name ∧
      (applyR2AccountId input s).redactKeys = s.redactKeys := by
    intro s
    unfold applyR2AccountId
    split <;> exact ⟨rfl, rfl, rfl, rfl, rfl⟩
  unfold initialState at h
  cases hr : resolveScope input with
  | error e => rw [hr] at h; exact Except.noConfusion h
  | ok scope =>
    rw [hr] at h
    cases h
    obtain ⟨e1, e2, e3, e4, e5⟩ := hr2 (baseSecret input scope)
    refine ⟨?_, e2, e3, e4, e5, rfl⟩
    rw [e1]
    rfl

/-- An option whose lower-cased key is not recognized makes the loop
iteration fail, naming that key. -/
theorem applyOption_unknown {all : List (String × Value)} {st : BuildState}
    {p : String × Value} (h : strLower p.1 ∉ recognizedKeys) :
    applyOption all st p =
      .error ("Unknown named parameter passed to CreateSecretFunctionInternal: " ++
        strLower p.1) := by
  simp only [recognizedKeys, List.mem_cons, List.not_mem_nil, or_false, not_or] at h
  obtain ⟨n1, n2, n3, n4, n5, n6, n7, n8, n9, n10, n11, n12, n13⟩ := h
  unfold applyOption
  rw [if_neg n1, if_neg n2, if_neg n3, if_neg n4, if_neg n5, if_neg n6, if_neg n7,
      if_neg n8, if_neg n9, if_neg n10, if_neg n11, if_neg n12, if_neg n13]

/-- A successful block of options containing no `refresh` or
`refresh_info` key leaves the refresh flag and the two refresh map
entries unchanged. -/
theorem applyOptions_neutral_block (all : List (String × Value)) :
    ∀ (l : List (String × Value)) (st st' : BuildState),
    applyOptions all st l = .ok st' →
    (∀ p ∈ l, strLower p.1 ≠ "refresh" ∧ strLower p.1 ≠ "refresh_info") →
    st'.refresh = st.refresh ∧
    getKV st'.secret.secretMap "refresh" = getKV st.secret.secretMap "refresh" ∧
    getKV st'.secret.secretMap "refresh_info" = getKV st.secret.secretMap "refresh_info" := by
  intro l
  induction l with
  | nil => intro st st' h _; cases h; exact ⟨rfl, rfl, rfl⟩
  | cons q rest ih =>
    intro st st' h hkeys
    rw [applyOptions_cons] at h
    cases hap : applyOption all st q with
    | error e => rw [hap] at h; exact Except.noConfusion h
    | ok st1 =>
      rw [hap] at h
      have hq := hkeys q (List.mem_cons_self q rest)
      obtain ⟨d1, d2, d3⟩ := (applyOption_ok_spec hap).2.2.2 hq.1 hq.2
      obtain ⟨e1, e2, e3⟩ := ih st1 st' h (fun p hp => hkeys p (List.mem_cons_of_mem q hp))
      exact ⟨e1.trans d1, e2.trans d2, e3.trans d3⟩

/-- Once the refresh flag is set, any later option keyed `refresh` or
`refresh_info` makes the loop fail. -/
theorem applyOptions_error_of_flag (all : List (String × Value)) :
    ∀ (l : List (String × Value)) (st : BuildState),
    st.refresh = true →
    (∃ p ∈ l, strLower p.1 = "refresh" ∨ strLower p.1 = "refresh_info") →
    ∃ msg, applyOptions all st l = .error msg := by
  intro l
  induction l with
  | nil => intro st _ hex; simp at hex
  | cons q rest ih =>
    intro st hf hex
    rw [applyOptions_cons]
    by_cases hq : strLower q.1 = "refresh" ∨ strLower q.1 = "refresh_info"
    · have herr : applyOption all st q =
          .error "Can not set `refresh` and `refresh_info` at the same time" := by
        rcases hq with hq | hq
        · unfold applyOption; rw [hq]; simp [hf]
        · unfold applyOption; rw [hq]; simp [hf]
      rw [herr]
      exact ⟨_, rfl⟩
    · push_neg at hq
      cases hap : applyOption all st q with
      | error e => exact ⟨e, rfl⟩
      | ok st1 =>
        have hd := ((applyOption_ok_spec hap).2.2.2 hq.1 hq.2).1
        have hex' : ∃ p ∈ rest, strLower p.1 = "refresh" ∨ strLower p.1 = "refresh_info" := by
          rcases hex with ⟨p, hp, hkey⟩
          rcases List.mem_cons.mp hp with heq | hp'
          · rw [heq] at hkey
            rcases hkey with hkey | hkey
            · exact absurd hkey hq.1
            · exact absurd hkey hq.2
          · exact ⟨p, hp', hkey⟩
        obtain ⟨msg, hmsg⟩ := ih st1 (hd.trans hf) hex'
        exact ⟨msg, hmsg⟩

/-- An option list carrying both a `refresh` option with value `auto`
and a `refresh_info` option always makes the loop fail, whichever comes
first in iteration order. -/
theorem applyOptions_error_of_refresh_conflict (all : List (String × Value)) :
    ∀ (l : List (String × Value)) (st : BuildState),
    (∃ p ∈ l, strLower p.1 = "refresh" ∧ valueToString p.2 = "auto") →
    (∃ p ∈ l, strLower p.1 = "refresh_info") →
    ∃ msg, applyOptions all st l = .error msg := by
  intro l
  induction l with
  | nil => intro st ha _; simp at ha
  | cons q rest ih =>
    intro st ha hi
    rw [applyOptions_cons]
    cases hap : applyOption all st q with
    | error e => exact ⟨e, rfl⟩
    | ok st1 =>
      by_cases hq1 : strLower q.1 = "refresh"
      · have hi' : ∃ p ∈ rest, strLower p.1 = "refresh_info" := by
          rcases hi with ⟨p, hp, hkey⟩
          rcases List.mem_cons.mp hp with heq | hp'
          · rw [heq, hq1] at hkey; exact absurd hkey (by simp)
          · exact ⟨p, hp', hkey⟩
        by_cases hauto : valueToString q.2 = "auto"
        · have hflag : st1.refresh = true := by
            rw [((applyOption_ok_spec hap).2.1 hq1).2.1, hauto]
            rfl
          obtain ⟨p, hp, hkey⟩ := hi'
          obtain ⟨msg, hmsg⟩ :=
            applyOptions_error_of_flag all rest st1 hflag ⟨p, hp, Or.inr hkey⟩
          exact ⟨msg, hmsg⟩
        · have ha' : ∃ p ∈ rest, strLower p.1 = "refresh" ∧ valueToString p.2 = "auto" := by
            rcases ha with ⟨p, hp, hkey⟩
            rcases List.mem_cons.mp hp with heq | hp'
            · rw [heq] at hkey; exact absurd hkey.2 hauto
            · exact ⟨p, hp', hkey⟩
          exact ih st1 ha' hi'
      · by_cases hq2 : strLower q.1 = "refresh_info"
        · have hflag : st1.refresh = true := ((applyOption_ok_spec hap).2.2.1 hq2).2
          have ha' : ∃ p ∈ rest, strLower p.1 = "refresh" ∨ strLower p.1 = "refresh_info" := by
            rcases ha with ⟨p, hp, hkey⟩
            rcases List.mem_cons.mp hp with heq | hp'
            · rw [heq] at hkey; exact absurd hkey.1 hq1
            · exact ⟨p, hp', Or.inl hkey.1⟩
          obtain ⟨msg, hmsg⟩ := applyOptions_error_of_flag all rest st1 hflag ha'
          exact ⟨msg, hmsg⟩
        · have ha' : ∃ p ∈ rest, strLower p.1 = "refresh" ∧ valueToString p.2 = "auto" := by
            rcases ha with ⟨p, hp, hkey⟩
            rcases List.mem_cons.mp hp with heq | hp'
            · rw [heq] at hkey; exact absurd hkey.1 hq1
            · exact ⟨p, hp', hkey⟩
          have hi' : ∃ p ∈ rest, strLower p.1 = "refresh_info" := by
            rcases hi with ⟨p, hp, hkey⟩
            rcases List.mem_cons.mp hp with heq | hp'
            · rw [heq] at hkey; exact absurd hkey hq2
            · exact ⟨p, hp', hkey⟩
          exact ih st1 ha' hi'

/-- When a `refresh_info` option is iterated before a `refresh` option
(whatever its value), the loop fails: the `refresh_info` branch either
throws itself or sets the flag, and the later `refresh` key then throws
on the set flag. -/
theorem applyOptions_error_refresh_after_info (all : List (String × Value))
    (pre post : List (String × Value)) (kri : String) (vri : Value) (st : BuildState)
    (hkri : strLower kri = "refresh_info")
    (hpost : ∃ p ∈ post, strLower p.1 = "refresh") :
    ∃ msg, applyOptions all st (pre ++ (kri, vri) :: post) = .error msg := by
  rw [applyOptions_append]
  cases hp : applyOptions all st pre with
  | error e => exact ⟨e, rfl⟩
  | ok st1 =>
    show ∃ msg, applyOptions all st1 ((kri, vri) :: post) = .error msg
    rw [applyOptions_cons]
    cases hap : applyOption all st1 (kri, vri) with
    | error e => exact ⟨e, rfl⟩
    | ok st2 =>
      have hflag : st2.refresh = true := ((applyOption_ok_spec hap).2.2.1 hkri).2
      obtain ⟨p, hpm, hpk⟩ := hpost
      exact applyOptions_error_of_flag all post st2 hflag ⟨p, hpm, Or.inl hpk⟩

/-- A loop failure surfaces from `CreateSecretFunctionInternal` as an
`InvalidInputException`. -/
theorem createSecret_invalid_of_loop_error (input : CreateSecretInput) (st0 : BuildState)
    (h0 : initialState input = .ok st0)
    (h : ∃ msg, applyOptions input.options st0 input.options = .error msg) :
    isInvalidInputError (CreateSecretFunctionInternal input) = true := by
  obtain ⟨msg, hmsg⟩ := h
  unfold CreateSecretFunctionInternal
  rw [h0]
  show isInvalidInputError
      (match applyOptions input.options st0 input.options with
       | .error msg => Except.error (SecretError.invalidInput msg)
       | .ok st' => Except.ok st'.secret) = true
  rw [hmsg]
  rfl

/-- Scope resolution characterized: explicit user scope wins; with an
empty input scope the per-type defaults apply. -/
theorem resolveScope_spec (input : CreateSecretInput) (sc : List String)
    (h : resolveScope input = .ok sc) :
    (input.scope ≠ [] → sc = input.scope) ∧
    (input.scope = [] →
      (input.type = "s3" → sc = ["s3://", "s3n://", "s3a://"]) ∧
      (input.type = "r2" → sc = ["r2://"]) ∧
      (input.type = "gcs" → sc = ["gcs://", "gs://"]) ∧
      (input.type = "aws" → sc = [""])) := by
  unfold resolveScope at h
  by_cases he : input.scope.isEmpty = true
  · rw [if_pos he] at h
    have he' : input.scope = [] := by simpa using he
    constructor
    · intro hne; exact absurd he' hne
    · intro _
      refine ⟨?_, ?_, ?_, ?_⟩ <;> intro hty <;> rw [hty] at h <;> simp at h <;>
        exact h.symm
  · rw [if_neg he] at h
    have he' : input.scope ≠ [] := by simpa using he
    constructor
    · intro _; injection h with h'; exact h'.symm
    · intro hc; exact absurd hc he'

/-- A successful run of `CreateSecretFunctionInternal` resolves the
scope, keeps the input identity fields and the fixed redact keys. -/
theorem createSecret_ok_fields (input : CreateSecretInput) (secret : KeyValueSecret)
    (h : CreateSecretFunctionInternal input = .ok secret) :
    resolveScope input = .ok secret.scope ∧
    secret.type = input.type ∧ secret.provider = input.provider ∧
    secret.name = input.name ∧
    secret.redactKeys = ["secret", "session_token"] := by
  unfold CreateSecretFunctionInternal at h
  cases h0 : initialState input with
  | error e => rw [h0] at h; exact Except.noConfusion h
  | ok st =>
    rw [h0] at h
    have h1 : (match applyOptions input.options st input.options with
               | .error msg => Except.error (SecretError.invalidInput msg)
               | .ok st' => Except.ok st'.secret) = Except.ok secret := h
    cases hrun : applyOptions input.options st input.options with
    | error e => rw [hrun] at h1; exact Except.noConfusion h1
    | ok st' =>
      rw [hrun] at h1
      have h2 : Except.ok st'.secret = Except.ok secret := h1
      injection h2 with h3
      subst h3
      obtain ⟨f1, f2, f3, f4, f5⟩ := applyOptions_ok_fields input.options st st' hrun
      obtain ⟨g1, g2, g3, g4, g5, _⟩ := initialState_fields h0
      rw [f1, f2, f3, f4, f5]
      exact ⟨g1, g2, g3, g4, g5⟩

/-- C3: `TryRefreshS3Secret` on a secret entry whose key-value map has
no `refresh_info` entry returns false immediately, and its call trace is
empty: the secret manager's `CreateSecret` is never invoked. -/
theorem C3_no_recipe_returns_false
    (cs : CreateSecretInput → Except SecretError KeyValueSecret) (entry : SecretEntry)
    (h : getKV entry.secret.secretMap "refresh_info" = none) :
    TryRefreshS3Secret cs entry = (.ok false, []) := by
  unfold TryRefreshS3Secret
  rw [h]

/-- Witness for C3 on a concrete secret with no recipe, under a
creation oracle that would be observable if it were called. -/
theorem C3_no_recipe_returns_false_witness :
    getKV c3entry.secret.secretMap "refresh_info" = none ∧
    TryRefreshS3Secret (fun _ => .error (.invalidInput "unexpected call")) c3entry =
      (.ok false, []) :=
  ⟨rfl, C3_no_recipe_returns_false _ c3entry rfl⟩

/-- C1: when the failed secret carries a refresh recipe,
`TryRefreshS3Secret` re-invokes secret creation exactly once (for any
behaviour of the creation function), with an input whose type, name,
provider, scope and storage mode equal those of the original entry,
temporary persistence, and replace-on-conflict policy. -/
theorem C1_refresh_replays_creation
    (cs : CreateSecretInput → Except SecretError KeyValueSecret)
    (entry : SecretEntry) (ri : Value)
    (h : getKV entry.secret.secretMap "refresh_info" = some ri) :
    (TryRefreshS3Secret cs entry).2 = [GenerateRefreshSecretInfo entry ri] ∧
    (GenerateRefreshSecretInfo entry ri).type = entry.secret.type ∧
    (GenerateRefreshSecretInfo entry ri).name = entry.secret.name ∧
    (GenerateRefreshSecretInfo entry ri).provider = entry.secret.provider ∧
    (GenerateRefreshSecretInfo entry ri).scope = entry.secret.scope ∧
    (GenerateRefreshSecretInfo entry ri).storageType = entry.storageMode ∧
    (GenerateRefreshSecretInfo entry ri).persistType = SecretPersistType.temporary ∧
    (GenerateRefreshSecretInfo entry ri).onConflict = OnCreateConflict.replaceOnConflict := by
  refine ⟨?_, rfl, rfl, rfl, rfl, rfl, rfl, rfl⟩
  simp only [TryRefreshS3Secret, h]
  cases hcs : cs (GenerateRefreshSecretInfo entry ri) <;> simp [hcs]

/-- Witness for C1 on `c1entry`, under an oracle that succeeds. -/
theorem C1_refresh_replays_creation_witness :
    getKV c1entry.secret.secretMap "refresh_info" = some c1ri ∧
    (TryRefreshS3Secret (fun _ => .ok c1entry.secret) c1entry).2 =
      [GenerateRefreshSecretInfo c1entry c1ri] ∧
    (GenerateRefreshSecretInfo c1entry c1ri).scope = c1entry.secret.scope ∧
    (GenerateRefreshSecretInfo c1entry c1ri).onConflict =
      OnCreateConflict.replaceOnConflict :=
  ⟨rfl, (C1_refresh_replays_creation _ c1entry c1ri rfl).1,
    (C1_refresh_replays_creation (fun _ => .ok c1entry.secret) c1entry c1ri rfl).2.2.2.2.1,
    (C1_refresh_replays_creation (fun _ => .ok c1entry.secret) c1entry c1ri rfl).2.2.2.2.2.2.2⟩

/-- C6: every secret returned by `CreateSecretFunctionInternal` has
redact keys exactly `secret` and `session_token`, whatever options were
supplied. -/
theorem C6_redact_keys (input : CreateSecretInput) (secret : KeyValueSecret)
    (h : CreateSecretFunctionInternal input = .ok secret) :
    secret.redactKeys = ["secret", "session_token"] :=
  (createSecret_ok_fields input secret h).2.2.2.2

/-- Witness for C6 on a concrete creation. -/
theorem C6_redact_keys_witness :
    CreateSecretFunctionInternal c6input = .ok c6secret ∧
    c6secret.redactKeys = ["secret", "session_token"] :=
  ⟨rfl, C6_redact_keys c6input c6secret rfl⟩

/-- C5: the scope of a secret created with an empty input scope is the
per-type default (`s3`, `r2`, `gcs`, `aws`), and an explicit non-empty
input scope is kept unchanged. -/
theorem C5_default_scopes (input : CreateSecretInput) (secret : KeyValueSecret)
    (h : CreateSecretFunctionInternal input = .ok secret) :
    (input.scope ≠ [] → secret.scope = input.scope) ∧
    (input.scope = [] →
      (input.type = "s3" → secret.scope = ["s3://", "s3n://", "s3a://"]) ∧
      (input.type = "r2" → secret.scope = ["r2://"]) ∧
      (input.type = "gcs" → secret.scope = ["gcs://", "gs://"]) ∧
      (input.type = "aws" → secret.scope = [""])) :=
  resolveScope_spec input secret.scope (createSecret_ok_fields input secret h).1

/-- Witness for C5 on a concrete empty-scope gcs creation. -/
theorem C5_default_scopes_witness :
    CreateSecretFunctionInternal c5input = .ok c5secret ∧
    c5input.scope = [] ∧
    c5secret.scope = ["gcs://", "gs://"] :=
  ⟨rfl, rfl, ((C5_default_scopes c5input c5secret rfl).2 rfl).2.2.1 rfl⟩

/-- C4: an option key outside the recognized set makes
`CreateSecretFunctionInternal` fail with an invalid-input error whose
message names the lower-cased offending key; stated for the first
unrecognized key reached by the option loop (the options before it
process without error). -/
theorem C4_unknown_key_rejected (input : CreateSecretInput)
    (st0 st1 : BuildState) (pre post : List (String × Value)) (k : String) (v : Value)
    (hopts : input.options = pre ++ (k, v) :: post)
    (hunrec : strLower k ∉ recognizedKeys)
    (h0 : initialState input = .ok st0)
    (hpre : applyOptions input.options st0 pre = .ok st1) :
    CreateSecretFunctionInternal input =
      .error (.invalidInput
        ("Unknown named parameter passed to CreateSecretFunctionInternal: " ++ strLower k)) := by
  have key : applyOptions input.options st0 input.options =
      .error ("Unknown named parameter passed to CreateSecretFunctionInternal: " ++
        strLower k) := by
    rw [hopts] at hpre
    conv_lhs => rw [hopts]
    rw [applyOptions_append, hpre]
    show applyOptions (pre ++ (k, v) :: post) st1 ((k, v) :: post) = _
    rw [applyOptions_cons, applyOption_unknown (p := (k, v)) hunrec]
  unfold CreateSecretFunctionInternal
  rw [h0]
  show (match applyOptions input.options st0 input.options with
        | .error msg => Except.error (SecretError.invalidInput msg)
        | .ok st' => Except.ok st'.secret) = _
  rw [key]

/-- Witness for C4 on a concrete input whose second option key is
unrecognized. -/
theorem C4_unknown_key_rejected_witness :
    strLower "Wrong_Key" ∉ recognizedKeys ∧
    initialState c4input = .ok c4st0 ∧
    applyOptions c4input.options c4st0 [("KEY_ID", Value.str "k")] = .ok c4st1 ∧
    CreateSecretFunctionInternal c4input =
      .error (.invalidInput
        ("Unknown named parameter passed to CreateSecretFunctionInternal: " ++
          strLower "Wrong_Key")) :=
  ⟨by decide, rfl, rfl,
    C4_unknown_key_rejected c4input c4st0 c4st1 [("KEY_ID", Value.str "k")] []
      "Wrong_Key" (Value.str "x") rfl (by decide) rfl rfl⟩

/-- C2 counterexample: on an input whose option map carries
`refresh='disabled'` iterated before `refresh_info`,
`CreateSecretFunctionInternal` does not fail, and the returned secret
carries both the `refresh` and the `refresh_info` option. -/
theorem C2_counterexample :
    creationOk (CreateSecretFunctionInternal c2cexInput) = true ∧
    okCarriesKey (CreateSecretFunctionInternal c2cexInput) "refresh" = true ∧
    okCarriesKey (CreateSecretFunctionInternal c2cexInput) "refresh_info" = true :=
  ⟨rfl, rfl, rfl⟩

/-- C2 (amended): provided the scope/type prologue succeeds, creation
fails with an invalid-input error (a) whenever the option map carries a
`refresh` option with the literal value `auto` together with a
`refresh_info` option, in every iteration order; and (b) whenever a
`refresh_info` option is iterated before a `refresh` option of any
value. -/
theorem C2_refresh_mutual_exclusion (input : CreateSecretInput) (st0 : BuildState)
    (h0 : initialState input = .ok st0) :
    ((∃ p ∈ input.options, strLower p.1 = "refresh" ∧ valueToString p.2 = "auto") →
      (∃ p ∈ input.options, strLower p.1 = "refresh_info") →
      isInvalidInputError (CreateSecretFunctionInternal input) = true) ∧
    (∀ (pre post : List (String × Value)) (kri : String) (vri : Value),
      input.options = pre ++ (kri, vri) :: post →
      strLower kri = "refresh_info" →
      (∃ p ∈ post, strLower p.1 = "refresh") →
      isInvalidInputError (CreateSecretFunctionInternal input) = true) := by
  constructor
  · intro hra hri
    exact createSecret_invalid_of_loop_error input st0 h0
      (applyOptions_error_of_refresh_conflict input.options input.options st0 hra hri)
  · intro pre post kri vri hsplit hkri hpost
    refine createSecret_invalid_of_loop_error input st0 h0 ?_
    rw [hsplit]
    exact applyOptions_error_refresh_after_info _ pre post kri vri st0 hkri hpost

/-- Witness for the amended C2: part (a) on `refresh_info` before
`REFRESH('auto')`, part (b) on `refresh_info` before
`refresh('disabled')`. -/
theorem C2_refresh_mutual_exclusion_witness :
    initialState c2amInput = .ok c2amState ∧
    isInvalidInputError (CreateSecretFunctionInternal c2amInput) = true ∧
    initialState c2bInput = .ok c2bState ∧
    isInvalidInputError (CreateSecretFunctionInternal c2bInput) = true :=
  ⟨rfl,
    (C2_refresh_mutual_exclusion c2amInput c2amState rfl).1
      ⟨("REFRESH", Value.str "auto"),
        List.mem_cons_of_mem _ (List.mem_cons_self _ _), by decide, by decide⟩
      ⟨("refresh_info", Value.mapVal [("a", "b")]), List.mem_cons_self _ _, by decide⟩,
   rfl,
    (C2_refresh_mutual_exclusion c2bInput c2bState rfl).2
      [] [("refresh", Value.str "disabled")] "refresh_info" (Value.mapVal [("a", "b")])
      rfl (by decide)
      ⟨("refresh", Value.str "disabled"), List.mem_cons_self _ _, by decide⟩⟩

/-- C9 counterexample: with `refresh='disabled'` iterated before a
`refresh_info` option, creation succeeds but the stored `refresh_info`
is the converted user map, not the lower-cased copy of every supplied
option. -/
theorem C9_counterexample :
    okMapLookup (CreateSecretFunctionInternal c9cexInput) "refresh_info" =
      some (Value.structVal [("a", Value.str "b")]) ∧
    okMapLookup (CreateSecretFunctionInternal c9cexInput) "refresh_info" ≠
      some (Value.structVal (c9cexInput.options.map fun q => (strLower q.1, q.2))) := by
  refine ⟨rfl, ?_⟩
  intro hcontra
  have h1 : (structChildren ((okMapLookup (CreateSecretFunctionInternal c9cexInput)
      "refresh_info").getD (Value.boolean false))).length = 1 := rfl
  rw [hcontra] at h1
  have h2 : (2 : Nat) = 1 := h1
  exact absurd h2 (by decide)

/-- C9 (amended): on an input carrying a `refresh` option with any
string value and no `refresh_info` option (the case-insensitive C++
option map also guarantees the `refresh` key is unique), a successful
creation records `refresh = "auto"` and, under `refresh_info`, the
lower-cased copy of every supplied option including the refresh key
itself; the internal refresh flag ends up set iff the supplied value is
the literal `auto`. -/
theorem C9_refresh_records (input : CreateSecretInput)
    (pre post : List (String × Value)) (k : String) (v : Value)
    (st0 stf : BuildState)
    (hsplit : input.options = pre ++ (k, v) :: post)
    (hk : strLower k = "refresh")
    (hpost : ∀ p ∈ post, strLower p.1 ≠ "refresh" ∧ strLower p.1 ≠ "refresh_info")
    (h0 : initialState input = .ok st0)
    (hrun : applyOptions input.options st0 input.options = .ok stf) :
    CreateSecretFunctionInternal input = .ok stf.secret ∧
    getKV stf.secret.secretMap "refresh" = some (Value.str "auto") ∧
    getKV stf.secret.secretMap "refresh_info" =
      some (Value.structVal (input.options.map fun q => (strLower q.1, q.2))) ∧
    stf.refresh = (valueToString v == "auto") := by
  have hCS : CreateSecretFunctionInternal input = .ok stf.secret := by
    unfold CreateSecretFunctionInternal
    rw [h0]
    show (match applyOptions input.options st0 input.options with
          | .error msg => Except.error (SecretError.invalidInput msg)
          | .ok st' => Except.ok st'.secret) = _
    rw [hrun]
  refine ⟨hCS, ?_⟩
  rw [hsplit] at hrun ⊢
  rw [applyOptions_append] at hrun
  cases hp1 : applyOptions (pre ++ (k, v) :: post) st0 pre with
  | error e => rw [hp1] at hrun; exact Except.noConfusion hrun
  | ok st1 =>
    rw [hp1] at hrun
    have hrun1 : applyOptions (pre ++ (k, v) :: post) st1 ((k, v) :: post) = .ok stf := hrun
    rw [applyOptions_cons] at hrun1
    cases hap : applyOption (pre ++ (k, v) :: post) st1 (k, v) with
    | error e => rw [hap] at hrun1; exact Except.noConfusion hrun1
    | ok st2 =>
      rw [hap] at hrun1
      have hrun2 : applyOptions (pre ++ (k, v) :: post) st2 post = .ok stf := hrun1
      obtain ⟨_, hb2, hb3, hb4⟩ := (applyOption_ok_spec hap).2.1 hk
      obtain ⟨e1, e2, e3⟩ :=
        applyOptions_neutral_block (pre ++ (k, v) :: post) post st2 stf hrun2 hpost
      refine ⟨?_, ?_, ?_⟩
      · rw [e2, hb3]
      · rw [e3, hb4]
      · rw [e1, hb2]

/-- Witness for the amended C9 on a concrete input with
`REFRESH('disabled')` followed by a `key_id` option. -/
theorem C9_refresh_records_witness :
    initialState c9wInput = .ok c9wst0 ∧
    applyOptions c9wInput.options c9wst0 c9wInput.options = .ok c9wstf ∧
    CreateSecretFunctionInternal c9wInput = .ok c9wstf.secret ∧
    getKV c9wstf.secret.secretMap "refresh" = some (Value.str "auto") ∧
    getKV c9wstf.secret.secretMap "refresh_info" =
      some (Value.structVal (c9wInput.options.map fun q => (strLower q.1, q.2))) ∧
    c9wstf.refresh = (valueToString (Value.str "disabled") == "auto") := by
  have h := C9_refresh_records c9wInput [] [("key_id", Value.str "k")]
    "REFRESH" (Value.str "disabled") c9wst0 c9wstf rfl (by decide) (by decide) rfl rfl
  exact ⟨rfl, rfl, h.1, h.2.1, h.2.2.1, h.2.2.2⟩

/-- Option lists equal up to key case produce the same lower-cased
snapshot (the struct recorded by the `refresh` branch). -/
theorem lowered_map_eq {l l' : List (String × Value)} (h : List.Forall₂ optRel l l') :
    l.map (fun q => (strLower q.1, q.2)) = l'.map (fun q => (strLower q.1, q.2)) := by
  induction h with
  | nil => rfl
  | cons hpq _ ih => simp only [List.map_cons, ih, hpq.1, hpq.2]

/-- A loop iteration only sees an option key through `strLower`, so keys
equal up to case are interchangeable. -/
theorem applyOption_key_case {allOpts allOpts' : List (String × Value)} (st : BuildState)
    (k k' : String) (v : Value) (hk : strLower k = strLower k')
    (hmap : allOpts.map (fun q => (strLower q.1, q.2)) =
      allOpts'.map (fun q => (strLower q.1, q.2))) :
    applyOption allOpts st (k, v) = applyOption allOpts' st (k', v) := by
  unfold applyOption
  dsimp only
  rw [hk, hmap]

/-- Lifting of `applyOption_key_case` over the whole option loop. -/
theorem applyOptions_key_case {allOpts allOpts' : List (String × Value)}
    (hmap : allOpts.map (fun q => (strLower q.1, q.2)) =
      allOpts'.map (fun q => (strLower q.1, q.2))) :
    ∀ {l l' : List (String × Value)}, List.Forall₂ optRel l l' →
    ∀ st : BuildState, applyOptions allOpts st l = applyOptions allOpts' st l' := by
  intro l l' h
  induction h with
  | nil => intro st; rfl
  | @cons a b l1 l2 hpq htail ih =>
    intro st
    rw [applyOptions_cons, applyOptions_cons]
    obtain ⟨ka, va⟩ := a
    obtain ⟨kb, vb⟩ := b
    obtain ⟨hk, hv⟩ := hpq
    dsimp only at hk hv
    subst hv
    rw [applyOption_key_case st ka kb va hk hmap]
    cases applyOption allOpts' st (kb, va) with
    | error e => rfl
    | ok st1 => exact ih st1

/-- `find?` for the `account_id` option agrees on option lists equal up
to key case: either both miss, or both hit entries carrying the same
value. -/
theorem find_account_key_case :
    ∀ {l l' : List (String × Value)}, List.Forall₂ optRel l l' →
    (l.find? (fun q => strLower q.1 = "account_id") = none ∧
     l'.find? (fun q => strLower q.1 = "account_id") = none) ∨
    (∃ a b, l.find? (fun q => strLower q.1 = "account_id") = some a ∧
            l'.find? (fun q => strLower q.1 = "account_id") = some b ∧ a.2 = b.2) := by
  intro l l' h
  induction h with
  | nil => exact Or.inl ⟨rfl, rfl⟩
  | @cons a b l1 l2 hpq htail ih =>
    by_cases hp : strLower a.1 = "account_id"
    · right
      have hq : strLower b.1 = "account_id" := hpq.1.symm.trans hp
      exact ⟨a, b, List.find?_cons_of_pos _ (by simp [hp]),
        List.find?_cons_of_pos _ (by simp [hq]), hpq.2⟩
    · have hq : ¬(strLower b.1 = "account_id") := fun hb => hp (hpq.1.trans hb)
      rw [List.find?_cons_of_neg _ (by simp [hp]), List.find?_cons_of_neg _ (by simp [hq])]
      exact ih

/-- The pre-loop state agrees on inputs equal up to option key case. -/
theorem initialState_key_case (i1 i2 : CreateSecretInput)
    (ht : i1.type = i2.type) (hp : i1.provider = i2.provider) (hn : i1.name = i2.name)
    (hs : i1.scope = i2.scope) (ho : List.Forall₂ optRel i1.options i2.options) :
    initialState i1 = initialState i2 := by
  have hrs : resolveScope i1 = resolveScope i2 := by
    unfold resolveScope; rw [ht, hs]
  have hbase : baseSecret i1 = baseSecret i2 := by
    funext sc; unfold baseSecret; rw [ht, hp, hn]
  have hr2 : ∀ s : KeyValueSecret, applyR2AccountId i1 s = applyR2AccountId i2 s := by
    intro s
    unfold applyR2AccountId
    rw [ht]
    by_cases hty : i2.type = "r2"
    · rw [if_pos hty, if_pos hty]
      rcases find_account_key_case ho with ⟨hn1, hn2⟩ | ⟨a, b, hf1, hf2, hab⟩
      · rw [hn1, hn2]
      · rw [hf1, hf2]; simp only [hab]
    · rw [if_neg hty, if_neg hty]
  unfold initialState
  rw [hrs, hbase]
  cases resolveScope i2 with
  | error e => rfl
  | ok sc => simp only [hr2]

/-- C10: option keys are matched case-insensitively: two creation
inputs whose option maps agree up to the case of their keys (same
values, keys equal after lower-casing) produce identical results from
`CreateSecretFunctionInternal` — so e.g. `KEY_ID` and `key_id` select
the same option, and the stored map keys are the lower-cased forms. -/
theorem C10_case_insensitive_keys (i1 i2 : CreateSecretInput)
    (ht : i1.type = i2.type) (hp : i1.provider = i2.provider) (hn : i1.name = i2.name)
    (hs : i1.scope = i2.scope) (ho : List.Forall₂ optRel i1.options i2.options) :
    CreateSecretFunctionInternal i1 = CreateSecretFunctionInternal i2 := by
  unfold CreateSecretFunctionInternal
  rw [initialState_key_case i1 i2 ht hp hn hs ho]
  cases initialState i2 with
  | error e => rfl
  | ok st => simp only [applyOptions_key_case (lowered_map_eq ho) ho]

/-- Witness for C10: `KEY_ID` and `key_id` inputs create identical
secrets, and the stored key is the lower-cased form. -/
theorem C10_case_insensitive_keys_witness :
    CreateSecretFunctionInternal c6input = CreateSecretFunctionInternal c10input ∧
    CreateSecretFunctionInternal c6input = .ok c6secret ∧
    okMapLookup (CreateSecretFunctionInternal c6input) "key_id" = some (Value.str "k") :=
  ⟨C10_case_insensitive_keys c6input c10input rfl rfl rfl rfl
      (List.Forall₂.cons ⟨by decide, rfl⟩ List.Forall₂.nil),
   rfl, rfl⟩

/-- C7: constructing an `S3FileHandle` with both the read and write
flags set, or with the append flag set, fails with a not-implemented
error; it succeeds for read-only and for write-only flag
combinations. -/
theorem C7_s3filehandle_open_modes (flags : FileOpenFlags) :
    ((flags.openForReading && flags.openForWriting) = true →
      initS3FileHandle flags = .error "Cannot open an HTTP file for both reading and writing") ∧
    (flags.openForAppending = true → handleOk (initS3FileHandle flags) = false) ∧
    ((flags.openForReading = true ∧ flags.openForWriting = false ∨
        flags.openForReading = false ∧ flags.openForWriting = true) →
      flags.openForAppending = false → handleOk (initS3FileHandle flags) = true) := by
  rcases flags with ⟨r, w, a⟩
  cases r <;> cases w <;> cases a <;>
    simp [initS3FileHandle, handleOk]

/-- Witness for C7 at concrete flag combinations. -/
theorem C7_s3filehandle_open_modes_witness :
    initS3FileHandle ⟨true, true, false⟩ =
      .error "Cannot open an HTTP file for both reading and writing" ∧
    handleOk (initS3FileHandle ⟨false, true, true⟩) = false ∧
    handleOk (initS3FileHandle ⟨true, false, false⟩) = true :=
  ⟨(C7_s3filehandle_open_modes ⟨true, true, false⟩).1 rfl,
   (C7_s3filehandle_open_modes ⟨false, true, true⟩).2.1 rfl,
   (C7_s3filehandle_open_modes ⟨true, false, false⟩).2.2 (Or.inl ⟨rfl, rfl⟩) rfl⟩

/-- C8: a fresh `S3WriteBuffer` over start offset `s` and size `z > 0`
has internal part number `s / z`, `buffer_end = s + z`, write cursor 0
and `uploading = false`; the provider-facing part number is the internal
one plus one. -/
theorem C8_s3writebuffer_init (s z : Nat) (_hz : 0 < z) (hov : s + z < UINT64_MOD) :
    (initS3WriteBuffer s z).partNo = s / z ∧
    (initS3WriteBuffer s z).bufferEnd = s + z ∧
    (initS3WriteBuffer s z).idx = 0 ∧
    (initS3WriteBuffer s z).uploading = false ∧
    providerPartNo (initS3WriteBuffer s z) = s / z + 1 := by
  refine ⟨rfl, ?_, rfl, rfl, rfl⟩
  simpa [initS3WriteBuffer] using Nat.mod_eq_of_lt hov

/-- Witness for C8 at `s = 10`, `z = 4`. -/
theorem C8_s3writebuffer_init_witness :
    0 < 4 ∧ 10 + 4 < UINT64_MOD ∧
    (initS3WriteBuffer 10 4).partNo = 10 / 4 ∧
    (initS3WriteBuffer 10 4).bufferEnd = 14 ∧
    (initS3WriteBuffer 10 4).idx = 0 ∧
    (initS3WriteBuffer 10 4).uploading = false ∧
    providerPartNo (initS3WriteBuffer 10 4) = 3 := by
  have hz : 0 < 4 := by decide
  have hov : 10 + 4 < UINT64_MOD := by norm_num [UINT64_MOD]
  have h := C8_s3writebuffer_init 10 4 hz hov
  exact ⟨hz, hov, h.1, h.2.1, h.2.2.1, h.2.2.2.1, h.2.2.2.2⟩

end Httpfs

